import Mathlib

/-!
# Verification of the tidal-dl-ng stream-manifest / download engine

A shallow embedding of `src/tidal_dl_ng/download.py` (class `Download`).
Pure Python functions become Lean functions; the stateful download loop
becomes explicit state passing over an environment of network outcomes;
Python exceptions become `Except` / explicit error fields.  External
collaborators that live outside `src/` (the `tidalapi` session, the
filesystem helpers, the `constants` enums, the m3u8/mpegdash/json decoders)
are modelled as environment parameters or, where the spec fixes their
meaning, as definitions marked `Modelled from the spec:`.
-/

/-- Python exceptions that the embedded code can raise or log.
`mediaMissing`, `mediaUnknown`, `unknownManifestFormat` are the
repository's own exception classes; `httpError` is
`requests.exceptions.HTTPError` (raised by `raise_for_status`);
`connectionError` stands for any other transport-level exception raised by
`requests` during streaming (not a subclass of `HTTPError`, hence never
caught by `_download`'s `except HTTPError` handler); `attributeError` and
`indexError` are the Python builtins; `nonTermination` is a modelling
artefact marking fuel exhaustion of the (potentially unbounded)
retry loop. -/
inductive PyError
  | mediaMissing
  | mediaUnknown
  | unknownManifestFormat
  | httpError
  | connectionError
  | attributeError
  | indexError
  | nonTermination
  deriving DecidableEq, Repr

instance {ε α : Type} [DecidableEq ε] [DecidableEq α] : DecidableEq (Except ε α)
  | .error e, .error f =>
    if h : e = f then .isTrue (by rw [h]) else .isFalse (by intro hc; cases hc; exact h rfl)
  | .error _, .ok _ => .isFalse (by intro hc; cases hc)
  | .ok _, .error _ => .isFalse (by intro hc; cases hc)
  | .ok a, .ok b =>
    if h : a = b then .isTrue (by rw [h]) else .isFalse (by intro hc; cases hc; exact h rfl)

/-! ## String helpers

Executable models of the two Python string operations the source uses:
the `in` substring test and `str.replace`.  They are written by structural
recursion on character lists so that closed instances reduce inside
`decide`/`rfl` proofs. -/

/-- `leadsWith s p` holds when `p` is an initial segment of `s`
(`s.startswith(p)` in Python terms). -/
def leadsWith : List Char → List Char → Bool
  | _, [] => true
  | [], _ :: _ => false
  | c :: cs, p :: ps => c = p && leadsWith cs ps

/-- Substring occurrence test on character lists (Python's `p in s`). -/
def containsSub : List Char → List Char → Bool
  | [], p => p.isEmpty
  | c :: cs, p => leadsWith (c :: cs) p || containsSub cs p

/-- Python's `pat in s` on strings. -/
def strContains (s pat : String) : Bool := containsSub s.data pat.data

/-- If `p` is an initial segment of `s`, return the rest of `s`; else `none`. -/
def dropLead : List Char → List Char → Option (List Char)
  | s, [] => some s
  | [], _ :: _ => none
  | c :: cs, p :: ps => if c = p then dropLead cs ps else none

/-- Fuel-indexed worker for `pyReplace`; the fuel is the length of the
input, which suffices because each step consumes at least one character
when the pattern is nonempty. -/
def replaceAux (pat repl : List Char) : Nat → List Char → List Char
  | _, [] => []
  | 0, s => s
  | n + 1, c :: cs =>
    match dropLead (c :: cs) pat with
    | some rest => repl ++ replaceAux pat repl n rest
    | none => c :: replaceAux pat repl n cs

/-- Python's `s.replace(pat, repl)` for a nonempty pattern (every use in
the source has the literal nonempty pattern `"$Number$"`; the
empty-pattern behaviour of Python is not needed and is modelled as the
identity). -/
def pyReplace (s pat repl : String) : String :=
  if pat.data.isEmpty then s
  else ⟨replaceAux pat.data repl.data s.data.length s.data⟩

/-! ## Constants modelled from the spec

These live in `tidal_dl_ng/constants.py`, which is not under `src/`. -/

namespace StreamManifestMimeType

/-- Modelled from the spec: `constants.StreamManifestMimeType.MPD.value` is
not under `src/`; the spec (§4.1) only fixes that there are exactly three
recognized manifest MIME tags, of which this is the XML
adaptive-streaming one.  Modelled as a distinct string constant. -/
def MPD : String := "application/dash+xml"

/-- Modelled from the spec: the proprietary-JSON ("BTS") manifest MIME tag
(see `MPD`). -/
def BTS : String := "application/vnd.tidal.bts"

/-- Modelled from the spec: the HLS-playlist ("video") manifest MIME tag
(see `MPD`). -/
def VIDEO : String := "video/mp2t"

end StreamManifestMimeType

/-- Modelled from the spec: `constants.SkipExisting` is not under `src/`.
The spec (§4.5 `SkipCheck`) describes a skip policy that is disabled or
enabled, the enabled form optionally ignoring the file extension. -/
inductive SkipExisting
  | disabled
  | filename
  | extensionIgnore
  deriving DecidableEq, Repr

/-- Python truthiness of the enum member's `.value` (the `Disabled`
member's value is falsy, the enabled members' values are truthy), as used
by `if self.skip_existing.value:`. -/
def SkipExisting.val : SkipExisting → Bool
  | .disabled => false
  | _ => true

/-! ## Data model of `download.py` -/

/-- `model/tidal.py`'s `StreamManifest` value exactly as constructed at the
end of `Download.stream_manifest_parse`. -/
structure StreamManifest where
  urls : List String
  codecs : String
  file_extension : String
  encryption_type : String
  encryption_key : Option String
  mime_type : String
  deriving DecidableEq, Repr

/-- One `S` entry of the DASH segment timeline (`mpegdash` object); only
the repeat count `r` is consulted by the source. -/
structure TimelineS where
  r : Option Nat
  deriving DecidableEq, Repr

/-- The fields of the first segment template of the first representation
that the source reads. -/
structure SegmentTemplate where
  media : String
  Ss : List TimelineS
  deriving DecidableEq, Repr

/-- The part of a parsed MPD document that
`Download.stream_manifest_parse` consults: first period → first adaptation
set → first representation → first segment template. -/
structure MpdData where
  codecs : String
  mime_type : String
  segment_template : SegmentTemplate
  deriving DecidableEq, Repr

/-- The proprietary JSON envelope (`json.loads` result) with the five
fields the source reads. -/
structure BtsData where
  urls : List String
  codecs : String
  mimeType : String
  encryptionType : String
  encryptionKey : String
  deriving DecidableEq, Repr

/-- `stream_info` of one rendition of a multivariant playlist; the source
reads `resolution[1]` (the vertical resolution) and `codecs`. -/
structure StreamInfo where
  resolution1 : Nat
  codecs : String
  deriving DecidableEq, Repr

/-- One entry of `m3u8_variant.playlists`. -/
structure VariantEntry where
  uri : String
  stream_info : StreamInfo
  deriving DecidableEq, Repr

/-- A loaded `m3u8.M3U8` document: variant flag, variant entries, and the
segment file list (`files`) when it is a media playlist. -/
structure M3u8Data where
  is_variant : Bool
  playlists : List VariantEntry
  files : List String
  deriving DecidableEq, Repr

/-- The external decoders used by `stream_manifest_parse`:
`MPEGDASHParser.parse`/`base64` for MPD, `base64`/`json.loads` for BTS and
`m3u8.load` (a network fetch) for playlists.  All three are collaborators
outside `src/`, so they are environment parameters of the embedding. -/
structure ParseEnv where
  decode_mpd : String → MpdData
  decode_bts : String → BtsData
  load_m3u8 : String → M3u8Data

/-! ## Pure leaf functions of class `Download` -/

/-- `Download.is_encrypted`: `result = encryption_type != "NONE"`. -/
def is_encrypted (encryption_type : String) : Bool :=
  encryption_type != "NONE"

/-- `Download.get_file_extension`: substring dispatch on the stream URL;
the codec parameter is accepted but never read (the block consulting it is
commented out in the source). -/
def get_file_extension (stream_url : String) (stream_codec : String) : String :=
  if strContains stream_url ".flac" then ".flac"
  else if strContains stream_url ".mp4" then ".mp4"
  else if strContains stream_url ".ts" then ".ts"
  else ".m4a"

/-- The `for playlist in m3u8_variant.playlists` loop of
`Download._extract_video_stream`, with the running best playlist
(`m3u8_playlist`, `none` models the Python initial value `False`), best
resolution (`resolution_best`) and codec string (`mime_type`) as
accumulators.  `load` models `m3u8.load` (a network fetch of the
rendition's media playlist, performed each time the best improves). -/
def evs_loop (load : String → M3u8Data) (quality : Nat) :
    List VariantEntry → Option M3u8Data → Nat → String → Option M3u8Data × String
  | [], best, _, mt => (best, mt)
  | p :: rest, best, resolution_best, mt =>
    if resolution_best < p.stream_info.resolution1 then
      if quality = p.stream_info.resolution1 then
        (some (load p.uri), p.stream_info.codecs)
      else
        evs_loop load quality rest (some (load p.uri)) p.stream_info.resolution1
          p.stream_info.codecs
    else
      evs_loop load quality rest best resolution_best mt

/-- `Download._extract_video_stream`: for a multivariant playlist run the
selection loop from `(False, 0, "")`; for a non-variant playlist the loop
is skipped and the initial `(False, "")` is returned (`none` models
`False`). -/
def _extract_video_stream (load : String → M3u8Data) (m3u8_variant : M3u8Data)
    (quality : Nat) : Option M3u8Data × String :=
  if m3u8_variant.is_variant then
    evs_loop load quality m3u8_variant.playlists none 0 ""
  else
    (none, "")

/-- The contribution of one timeline entry to the segment count:
Python's `s.r if s.r else 1` (both `None` and `0` are falsy). -/
def segContribution (s : TimelineS) : Nat :=
  match s.r with
  | some n => if n = 0 then 1 else n
  | none => 1

/-- `Download.stream_manifest_parse`.  The three decoder calls are taken
from the environment; every other step is translated from the source:
the MPD branch computes `segments_count = 2 + Σ (s.r if s.r else 1)` by a
running sum and substitutes `$Number$` in the media template for each
index in `range(segments_count)`; the BTS branch copies the JSON fields
and gates the key on `is_encrypted`; the playlist branch selects a
rendition via `_extract_video_stream` (accessing `.files` on the Python
`False` returned for a non-variant playlist raises `AttributeError`);
any other MIME tag raises `UnknownManifestFormat`.  Indexing `urls[0]`
in the common post-step raises `IndexError` on an empty list. -/
def stream_manifest_parse (env : ParseEnv) (quality_video : Nat)
    (manifest : String) (mime_type : String) : Except PyError StreamManifest :=
  if mime_type = StreamManifestMimeType.MPD then
    let mpd := env.decode_mpd manifest
    let codecs := mpd.codecs
    let mime_inner := mpd.mime_type
    let segments_count :=
      mpd.segment_template.Ss.foldl (fun acc s => acc + segContribution s) 2
    let stream_urls :=
      (List.range segments_count).map
        (fun index => pyReplace mpd.segment_template.media "$Number$" (toString index))
    match stream_urls with
    | [] => .error .indexError
    | url0 :: _ =>
      .ok { urls := stream_urls, codecs := codecs,
            file_extension := get_file_extension url0 codecs,
            encryption_type := "NONE", encryption_key := none,
            mime_type := mime_inner }
  else if mime_type = StreamManifestMimeType.BTS then
    let b := env.decode_bts manifest
    match b.urls with
    | [] => .error .indexError
    | url0 :: _ =>
      .ok { urls := b.urls, codecs := b.codecs,
            file_extension := get_file_extension url0 b.codecs,
            encryption_type := b.encryptionType,
            encryption_key :=
              if is_encrypted b.encryptionType then some b.encryptionKey else none,
            mime_type := b.mimeType }
  else if mime_type = StreamManifestMimeType.VIDEO then
    let m3u8_variant := env.load_m3u8 manifest
    match _extract_video_stream env.load_m3u8 m3u8_variant quality_video with
    | (none, _) => .error .attributeError
    | (some m3u8_playlist, codecs) =>
      match m3u8_playlist.files with
      | [] => .error .indexError
      | url0 :: _ =>
        .ok { urls := m3u8_playlist.files, codecs := codecs,
              file_extension := get_file_extension url0 codecs,
              encryption_type := "NONE", encryption_key := none,
              mime_type := mime_type }
  else
    .error .unknownManifestFormat

/-! ## The segmented downloader (`Download._download`)

The byte-fetch loop of `_download` (lines 100–120 of the source) is
embedded as explicit state passing.  One network request per URL per
pass is taken from an environment function; file contents are abstracted
to lists of chunk identifiers (`Nat`). -/

/-- Outcome of one `requests.get(url, stream=True)` during a pass:

* `ok chunks` — `raise_for_status` passes and `iter_content` yields
  `chunks` (each chunk written to the file advances the progress task by
  one unit);
* `httpError` — `raise_for_status` raises `requests.HTTPError` (caught
  by `_download`'s `except HTTPError` handler);
* `connectionError chunks` — `iter_content` yields `chunks` and then
  raises a non-`HTTPError` transport exception (never caught, propagates
  out of `_download`). -/
inductive UrlOutcome
  | ok (chunks : List Nat)
  | httpError
  | connectionError (chunks : List Nat)
  deriving DecidableEq, Repr

/-- What one pass of the `for url in stream_manifest.urls` body does:
bytes written to the (truncated) file, progress advances made, the
exception raised (if any, ending the pass early), and the url indices
actually requested, in order. -/
structure PassResult where
  written : List Nat
  advanced : Nat
  error : Option PyError
  fetched : List Nat
  deriving DecidableEq, Repr

/-- One pass over the url list: URLs are fetched in order into the file
opened in truncate mode; a raised exception aborts the pass, keeping the
bytes written so far. -/
def runPass (fetch : Nat → UrlOutcome) : List Nat → PassResult
  | [] => ⟨[], 0, none, []⟩
  | i :: rest =>
    match fetch i with
    | .ok chunks =>
      let r := runPass fetch rest
      ⟨chunks ++ r.written, chunks.length + r.advanced, r.error, i :: r.fetched⟩
    | .httpError => ⟨[], 0, some .httpError, [i]⟩
    | .connectionError chunks =>
      ⟨chunks, chunks.length, some .connectionError, [i]⟩

/-- The observable outcome of `_download`'s fetch-and-write phase:

* `content` — bytes of the output file (`none`: the file was never
  created, i.e. `open(path_file, "wb")` never ran);
* `completed` — cumulative progress advances (the `rich` task's
  `completed` counter, which is *not* reset between passes);
* `logged` — exceptions passed to `fn_logger` by the `except HTTPError`
  handler;
* `raised` — an exception propagating out of `_download`, if any;
* `fetchTrace` — every request made by the loop, as (pass index, url index);
* `finished` — whether the progress task is finished on exit. -/
structure DownloadResult where
  content : Option (List Nat)
  completed : Nat
  logged : List PyError
  raised : Option PyError
  fetchTrace : List (Nat × Nat)
  finished : Bool
  deriving DecidableEq, Repr

/-- `while not progress.tasks[p_task].finished:` — the outer retry loop.
The task is finished when `total ≤ completed`.  Each iteration reopens
the file in truncate mode and runs one pass; an `HTTPError` raised
anywhere inside the `while` jumps to the `except HTTPError` handler
*outside* it, which logs the error and falls through (the loop is over);
any other exception propagates.  Structural recursion on `fuel` models
the potentially unbounded looping (`none` = still looping after `fuel`
iterations). -/
def downloadLoop (fetch : Nat → Nat → UrlOutcome) (urlIdxs : List Nat) (total : Nat) :
    Nat → Nat → Nat → Option (List Nat) → List PyError → List (Nat × Nat) →
    Option DownloadResult
  | 0, _, _, _, _, _ => none
  | fuel + 1, pass, completed, content, log, trace =>
    if total ≤ completed then
      some ⟨content, completed, log, none, trace, true⟩
    else
      let pr := runPass (fetch pass) urlIdxs
      let completed' := completed + pr.advanced
      let trace' := trace ++ pr.fetched.map (fun u => (pass, u))
      match pr.error with
      | some .httpError =>
        some ⟨some pr.written, completed', log ++ [PyError.httpError], none, trace',
              decide (total ≤ completed')⟩
      | some e =>
        some ⟨some pr.written, completed', log, some e, trace',
              decide (total ≤ completed')⟩
      | none =>
        downloadLoop fetch urlIdxs total fuel (pass + 1) completed' (some pr.written)
          log trace'

/-- Network environment of `_download`: `fetch pass url` is the outcome
of the request for url number `url` during pass number `pass` of the
write loop; `head`/`contentLength` describe the preliminary
content-length request issued when the manifest carries a single URL
(`head = ok _` means it succeeds and the response reports
`contentLength` bytes). -/
structure DlEnv where
  fetch : Nat → Nat → UrlOutcome
  head : UrlOutcome
  contentLength : Nat

/-- The fetch-and-write phase of `Download._download` (everything inside
its `try`/`except HTTPError`).  With more than one URL the progress total
is the URL count; with a single URL a preliminary request computes the
total from the content length (a float `total_size / 4096` in the source,
modelled with natural division; the claims below only exercise the
multi-URL path).  An `HTTPError` of the preliminary request is caught by
the same handler, before any file is created; any other transport error
there propagates. -/
def _download (env : DlEnv) (fuel : Nat) (urls : List String) : Option DownloadResult :=
  if 1 < urls.length then
    downloadLoop env.fetch (List.range urls.length) urls.length fuel 0 0 none [] []
  else
    match env.head with
    | UrlOutcome.httpError => some ⟨none, 0, [PyError.httpError], none, [], false⟩
    | UrlOutcome.connectionError _ => some ⟨none, 0, [], some PyError.connectionError, [], false⟩
    | UrlOutcome.ok _ =>
      downloadLoop env.fetch (List.range urls.length) (env.contentLength / 4096)
        fuel 0 0 none [] []

/-! ## Media handles and the single-item orchestrator (`Download.item`) -/

/-- The media-type tag passed to `instantiate_media`.  The recognized tags
are the five members of `constants.MediaType`; `other` models any
unrecognized value a caller may pass (the `else: raise MediaUnknown`
branch). -/
inductive MediaTag
  | track
  | video
  | album
  | playlist
  | mix
  | other (tag : String)
  deriving DecidableEq, Repr

/-- Which `tidalapi` class a media handle is an instance of. -/
inductive MediaKind
  | track
  | video
  | album
  | playlist
  | mix
  deriving DecidableEq, Repr

/-- A media handle (`tidalapi` object): its class and id.  The metadata
the handle exposes (name, album, …) is owned by the external session
collaborator and not consulted by the claims. -/
structure Media where
  kind : MediaKind
  idm : String
  deriving DecidableEq, Repr

/-- `Download.instantiate_media`: dispatch on the recognized media types,
`MediaUnknown` otherwise.  Constructing the `tidalapi` object is an
external collaborator call and is modelled as building the handle. -/
def instantiate_media (media_type : MediaTag) (id_media : String) :
    Except PyError Media :=
  match media_type with
  | .track => .ok ⟨.track, id_media⟩
  | .video => .ok ⟨.video, id_media⟩
  | .album => .ok ⟨.album, id_media⟩
  | .playlist => .ok ⟨.playlist, id_media⟩
  | .mix => .ok ⟨.mix, id_media⟩
  | .other _ => .error .mediaUnknown

/-- Python truthiness of the optional `media_id: str` argument (`None`
and the empty string are falsy). -/
def truthyStr : Option String → Bool
  | none => false
  | some s => s != ""

/-- Observable side effects of one `Download.item` call, in order. -/
inductive Effect
  | instantiate (tag : MediaTag) (idm : String)
  | logInfo
  | computePath
  | manifestFetch
  | skipCheck (path : String)
  | logDebug
  | contentFetch (passIdx urlIdx : Nat)
  | logError (e : PyError)
  | moveFile (dst : String)
  deriving DecidableEq, Repr

/-- Lines 171–175 of the source: `if media_id and media_type:` instantiate
(overwriting any supplied handle), `elif not media: raise MediaMissing`.
A supplied handle is always truthy, so `not media` is `media is None`.
Returns the resolved handle together with the effects performed. -/
def resolve_media (media : Option Media) (media_id : Option String)
    (media_type : Option MediaTag) : Except PyError (Media × List Effect) :=
  if truthyStr media_id && media_type.isSome then
    match media_id, media_type with
    | some i, some t =>
      (instantiate_media t i).map (fun m => (m, [Effect.instantiate t i]))
    | _, _ => .error .mediaMissing
  else
    match media with
    | none => .error .mediaMissing
    | some m => .ok (m, [])

/-- Environment of `Download.item`: everything the orchestrator consumes
from collaborators outside `src/`.

* `path_formatted` — the value of
  `os.path.abspath(os.path.normpath(os.path.join(path_base, format_path_media(file_template, media))))`
  (pure path helpers from `helper/path.py`);
* `sanitize` — `path_file_sanitize(·, adapt=True)`;
* `track_manifest` — `(media.stream().manifest, media.stream().manifest_mime_type)`
  for a `Track` handle (a network call of the session collaborator);
* `video_url` — `media.get_url()` for a non-`Track` handle (likewise);
* `file_exists` — `check_file_exists(path, extension_ignore)` from
  `helper/path.py` (a filesystem read);
* `convert_path` — `os.path.splitext(path)[0] + ".mp4"`;
* `quality_video` — `settings.data.quality_video.value`;
* `video_convert_mp4` — `settings.data.video_convert_mp4`. -/
structure ItemEnv where
  parseEnv : ParseEnv
  dlEnv : DlEnv
  path_formatted : String
  sanitize : String → String
  track_manifest : String × String
  video_url : String
  file_exists : String → Bool → Bool
  convert_path : String → String
  quality_video : Nat
  video_convert_mp4 : Bool
  skip_existing : SkipExisting

/-- The observable outcome of one `Download.item` call: the returned pair
(or the exception propagating to the caller), the effects performed in
order, and the content of the file this call created at the final
destination path (`none`: the call created no file there). -/
structure ItemResult where
  result : Except PyError (Bool × String)
  effects : List Effect
  finalFile : Option (List Nat)

/-- `Download.item`, lines 159–230 of the source.  Steps: resolve the
media handle; short-circuit when `video_download` is false; compute the
relative name and absolute base path; obtain the manifest string and MIME
type (`media.stream()` for a `Track`, `media.get_url()` plus the fixed
video MIME marker otherwise — both network calls); parse it; append the
file extension and sanitize; evaluate the skip policy; then either log and
return `(False, path)`, or download into a scoped temporary file and move
it to the final path (content decryption and metadata tagging are
external helpers that do not change which bytes reach the final path;
the ffmpeg conversion for videos is modelled by `convert_path`). -/
def item (env : ItemEnv) (fuel : Nat) (media : Option Media)
    (media_id : Option String) (media_type : Option MediaTag)
    (video_download : Bool) : ItemResult :=
  match resolve_media media media_id media_type with
  | .error e => ⟨.error e, [], none⟩
  | .ok (m, eff0) =>
    if !video_download then
      ⟨.ok (false, ""), eff0 ++ [Effect.logInfo], none⟩
    else
      let eff1 := eff0 ++ [Effect.computePath]
      let path_file0 := env.path_formatted
      let manifestPair :=
        if m.kind = MediaKind.track then env.track_manifest
        else (env.video_url, StreamManifestMimeType.VIDEO)
      let eff2 := eff1 ++ [Effect.manifestFetch]
      match stream_manifest_parse env.parseEnv env.quality_video
          manifestPair.1 manifestPair.2 with
      | .error e => ⟨.error e, eff2, none⟩
      | .ok sm =>
        let path_file := env.sanitize (path_file0 ++ sm.file_extension)
        let skipPair :=
          if env.skip_existing.val then
            (env.file_exists path_file
               (env.skip_existing = SkipExisting.extensionIgnore),
             eff2 ++ [Effect.skipCheck path_file])
          else
            (false, eff2)
        if skipPair.1 then
          ⟨.ok (false, path_file), skipPair.2 ++ [Effect.logDebug], none⟩
        else
          match _download env.dlEnv fuel sm.urls with
          | none => ⟨.error .nonTermination, skipPair.2, none⟩
          | some dl =>
            let eff3 := skipPair.2
              ++ dl.fetchTrace.map (fun pu => Effect.contentFetch pu.1 pu.2)
              ++ dl.logged.map Effect.logError
            match dl.raised with
            | some e => ⟨.error e, eff3, none⟩
            | none =>
              let path_final :=
                if m.kind = MediaKind.video && env.video_convert_mp4 then
                  env.convert_path path_file
                else path_file
              ⟨.ok (true, path_final), eff3 ++ [Effect.moveFile path_final],
               some (dl.content.getD [])⟩

/-! ## Specification-side definitions used to state the claims -/

/-- The rendition-selection recursion of `_extract_video_stream`,
restated on variant entries alone (which rendition ends up selected),
abstracting away the network loads and the codec plumbing of `evs_loop`:
a candidate replaces the running best only when it strictly improves the
best vertical resolution seen so far, and the iteration stops early when
such a strictly-improving candidate matches the target exactly. -/
def pick_best (quality : Nat) :
    List VariantEntry → Option VariantEntry → Nat → Option VariantEntry
  | [], best, _ => best
  | p :: rest, best, resolution_best =>
    if resolution_best < p.stream_info.resolution1 then
      if quality = p.stream_info.resolution1 then some p
      else pick_best quality rest (some p) p.stream_info.resolution1
    else
      pick_best quality rest best resolution_best

/-! ## Concrete environments for counterexamples and witnesses -/

/-- A trivial MPD decoder (unused fields) for environments that only
exercise other branches. -/
def mpdTrivial : MpdData := ⟨"", "", ⟨"", []⟩⟩

/-- A BTS manifest with two segment URLs and no encryption. -/
def btsTwoUrls : BtsData :=
  ⟨["u0.m4a", "u1.m4a"], "aac", "audio/mp4", "NONE", ""⟩

/-- Parse environment delivering `btsTwoUrls` for every BTS payload. -/
def parseEnvBts : ParseEnv :=
  ⟨fun _ => mpdTrivial, fun _ => btsTwoUrls, fun _ => ⟨false, [], []⟩⟩

/-- Download environment for the C1 failing input: the first request of
the first pass succeeds with one chunk, the second segment's
`raise_for_status` raises `HTTPError` mid-segment-loop. -/
def dlEnvC1 : DlEnv :=
  ⟨fun passIdx urlIdx =>
      if passIdx = 0 && urlIdx = 0 then UrlOutcome.ok [7] else UrlOutcome.httpError,
   UrlOutcome.ok [], 0⟩

/-- Item environment for the C1 failing input: a track whose manifest is
`btsTwoUrls`, skip policy disabled, no video conversion; the path helpers
are identities around the formatted base path. -/
def itemEnvC1 : ItemEnv :=
  ⟨parseEnvBts, dlEnvC1, "/x/track", fun s => s,
   ("m", StreamManifestMimeType.BTS), "", fun _ _ => false, fun s => s, 0, false,
   SkipExisting.disabled⟩

/-- Download environment where the very first request raises `HTTPError`
(for the C2 counterexample). -/
def dlEnvC2 : DlEnv := ⟨fun _ _ => UrlOutcome.httpError, UrlOutcome.ok [], 0⟩

/-- Item environment for the C3 counterexample: skip policy enabled
(`filename` mode), a file already exists at every path, and the track's
manifest is `btsTwoUrls`. -/
def itemEnvC3 : ItemEnv :=
  ⟨parseEnvBts, dlEnvC2, "/x/track", fun s => s,
   ("m", StreamManifestMimeType.BTS), "", fun _ _ => true, fun s => s, 0, false,
   SkipExisting.filename⟩

/-- The `StreamManifest` that `parseEnvBts` produces for a BTS payload. -/
def smBts : StreamManifest :=
  ⟨["u0.m4a", "u1.m4a"], "aac", ".m4a", "NONE", none, "audio/mp4"⟩

/-- Variant playlist for the C4 counterexample: a 720p rendition listed
before a 480p rendition. -/
def variantC4 : M3u8Data :=
  ⟨true, [⟨"u720", ⟨720, "c720"⟩⟩, ⟨"u480", ⟨480, "c480"⟩⟩], []⟩

/-- `m3u8.load` stub that returns a non-variant playlist whose only file
is the requested URI (so the loaded rendition identifies the selected
entry). -/
def loadC4 : String → M3u8Data := fun uri => ⟨false, [], [uri]⟩

/-- Variant playlist with renditions of vertical resolutions
`[360, 480, 720]` in listed order (the spec's variant-selection
example). -/
def variant360 : M3u8Data :=
  ⟨true,
   [⟨"u360", ⟨360, "c360"⟩⟩, ⟨"u480", ⟨480, "c480"⟩⟩, ⟨"u720", ⟨720, "c720"⟩⟩],
   []⟩

/-- Parse environment for the C9 counterexample: the playlist URL loads a
direct (non-variant) media playlist with a nonempty segment list. -/
def envC9 : ParseEnv :=
  ⟨fun _ => mpdTrivial, fun _ => btsTwoUrls,
   fun _ => ⟨false, [], ["seg0.ts", "seg1.ts"]⟩⟩

/-- Parse environment for the C9 witness: the manifest URL loads a
multivariant playlist with one 480p rendition whose media playlist has a
single `.ts` segment. -/
def envC9v : ParseEnv :=
  ⟨fun _ => mpdTrivial, fun _ => btsTwoUrls,
   fun uri =>
     if uri = "master" then ⟨true, [⟨"child", ⟨480, "avc1"⟩⟩], []⟩
     else ⟨false, [], ["s0.ts"]⟩⟩

/-- MPD decoder for the C6 segment-count example: timeline
`[{r:2}, {r:None}, {r:0}]`. -/
def envC6 : ParseEnv :=
  ⟨fun _ => ⟨"aac", "audio/mp4", ⟨"s$Number$.m4a", [⟨some 2⟩, ⟨none⟩, ⟨some 0⟩]⟩⟩,
   fun _ => btsTwoUrls, fun _ => ⟨false, [], []⟩⟩

/-- Parse environment for the C5 witness (an unencrypted BTS manifest). -/
def envC5 : ParseEnv := parseEnvBts

/-- Item environment for the C10 witness. -/
def itemEnvC10 : ItemEnv :=
  ⟨parseEnvBts, dlEnvC2, "/x/track", fun s => s,
   ("m", StreamManifestMimeType.BTS), "", fun _ _ => false, fun s => s, 0, false,
   SkipExisting.disabled⟩

/-! ## Helper lemmas -/

/-- A running sum started at `init` equals `init` plus the sum of the
mapped list (the shape of the `segments_count` accumulation). -/
theorem foldl_add_init {α : Type} (f : α → Nat) (l : List α) (init : Nat) :
    l.foldl (fun acc s => acc + f s) init = init + (l.map f).sum := by
  induction l generalizing init with
  | nil => simp
  | cons x xs ih =>
    simp only [List.foldl_cons, List.map_cons, List.sum_cons, ih]
    omega

/-! ## Claim theorems -/

/-- C7: for every stream URL and codec string, the inferred extension is
decided by substring match on the URL alone in priority order — `.flac`
if the URL contains `.flac`; else `.mp4` if it contains `.mp4`; else
`.ts` if it contains `.ts`; else `.m4a` — and the codec parameter is
accepted but never consulted. -/
theorem c7_file_extension_inference :
    (∀ url codec codec2,
      get_file_extension url codec = get_file_extension url codec2) ∧
    (∀ url codec,
      (strContains url ".flac" = true →
        get_file_extension url codec = ".flac") ∧
      (strContains url ".flac" = false → strContains url ".mp4" = true →
        get_file_extension url codec = ".mp4") ∧
      (strContains url ".flac" = false → strContains url ".mp4" = false →
        strContains url ".ts" = true → get_file_extension url codec = ".ts") ∧
      (strContains url ".flac" = false → strContains url ".mp4" = false →
        strContains url ".ts" = false → get_file_extension url codec = ".m4a")) := by
  constructor
  · intro url c1 c2
    rfl
  · intro url codec
    refine ⟨fun h1 => ?_, fun h1 h2 => ?_, fun h1 h2 h3 => ?_, fun h1 h2 h3 => ?_⟩
    · simp [get_file_extension, h1]
    · simp [get_file_extension, h1, h2]
    · simp [get_file_extension, h1, h2, h3]
    · simp [get_file_extension, h1, h2, h3]

/-- C7 witness: a URL containing `.mp4` but not `.flac` infers `.mp4`,
whatever the codec says. -/
theorem c7_witness : get_file_extension "a.mp4" "flac" = ".mp4" :=
  (c7_file_extension_inference.2 "a.mp4" "flac").2.1 (by decide) (by decide)

/-- C5: for every manifest accepted by any of the three normalizer paths,
the resulting `StreamManifest` has `encryption_key = none` iff
`encryption_type = "NONE"` (the adaptive-streaming and playlist paths
always produce `"NONE"`/`none`; the proprietary-JSON path copies the key
exactly when its `encryptionType` differs from `"NONE"`). -/
theorem c5_encryption_key_iff (env : ParseEnv) (q : Nat) (manifest mime : String)
    (sm : StreamManifest)
    (h : stream_manifest_parse env q manifest mime = Except.ok sm) :
    sm.encryption_key = none ↔ sm.encryption_type = "NONE" := by
  simp only [stream_manifest_parse] at h
  split at h
  · split at h
    · exact absurd h (by simp)
    · simp only [Except.ok.injEq] at h
      subst h
      simp
  · split at h
    · split at h
      · exact absurd h (by simp)
      · simp only [Except.ok.injEq] at h
        subst h
        by_cases ht : (env.decode_bts manifest).encryptionType = "NONE" <;>
          simp [is_encrypted, bne_iff_ne, ht]
    · split at h
      · split at h
        · exact absurd h (by simp)
        · split at h
          · exact absurd h (by simp)
          · simp only [Except.ok.injEq] at h
            subst h
            simp
      · exact absurd h (by simp)

/-- C5 witness: the invariant evaluated on a concrete unencrypted BTS
manifest. -/
theorem c5_witness : smBts.encryption_key = none ↔ smBts.encryption_type = "NONE" :=
  c5_encryption_key_iff envC5 0 "m" StreamManifestMimeType.BTS smBts (by decide)

/-- C6: for every adaptive-streaming manifest the segment count is
`2 + Σ (S.r if S.r else 1)` over the timeline entries, and the url list
is built in ascending index order over `[0, segments_count)` by
substituting the index for the `$Number$` placeholder of the
segment-template media pattern; on the timeline `[{r:2},{r:None},{r:0}]`
the count is 6. -/
theorem c6_dash_segments :
    (∀ (env : ParseEnv) (q : Nat) (manifest : String),
      stream_manifest_parse env q manifest StreamManifestMimeType.MPD =
        Except.ok
          { urls := (List.range
              (2 + ((env.decode_mpd manifest).segment_template.Ss.map
                segContribution).sum)).map
              (fun index =>
                pyReplace (env.decode_mpd manifest).segment_template.media "$Number$"
                  (toString index)),
            codecs := (env.decode_mpd manifest).codecs,
            file_extension :=
              get_file_extension
                (pyReplace (env.decode_mpd manifest).segment_template.media "$Number$"
                  (toString (0 : Nat)))
                (env.decode_mpd manifest).codecs,
            encryption_type := "NONE", encryption_key := none,
            mime_type := (env.decode_mpd manifest).mime_type }) ∧
    (stream_manifest_parse envC6 0 "x" StreamManifestMimeType.MPD).toOption.map
        (fun sm => sm.urls.length) = some 6 := by
  constructor
  · intro env q manifest
    simp only [stream_manifest_parse, if_pos]
    rw [foldl_add_init segContribution (env.decode_mpd manifest).segment_template.Ss 2]
    rw [show 2 + ((env.decode_mpd manifest).segment_template.Ss.map segContribution).sum =
      (1 + ((env.decode_mpd manifest).segment_template.Ss.map segContribution).sum) + 1
      from by omega]
    rw [List.range_succ_eq_map, List.map_cons]
  · decide

/-- The selection loop refines `pick_best`: running `evs_loop` with the
loaded best playlist and its codec as accumulators returns the load and
codec of the entry `pick_best` chooses. -/
theorem evs_loop_pick (load : String → M3u8Data) (q : Nat) (l : List VariantEntry)
    (bestE : Option VariantEntry) (rbest : Nat) :
    evs_loop load q l (bestE.map (fun e => load e.uri)) rbest
        (bestE.elim "" (fun e => e.stream_info.codecs)) =
      (match pick_best q l bestE rbest with
       | none => (none, "")
       | some p => (some (load p.uri), p.stream_info.codecs)) := by
  induction l generalizing bestE rbest with
  | nil =>
    cases bestE <;> simp [evs_loop, pick_best]
  | cons p rest ih =>
    simp only [evs_loop, pick_best]
    split
    · split
      · simp
      · exact ih (some p) p.stream_info.resolution1
    · exact ih bestE rbest

/-- What `pick_best` guarantees: a selected entry is either carried in
from the accumulator or listed, and it either matches the target exactly
(early stop) or dominates the accumulator resolution and every listed
resolution. -/
theorem pick_best_spec (q : Nat) (l : List VariantEntry) :
    ∀ (bestE : Option VariantEntry) (rbest : Nat),
      (∀ e, bestE = some e → e.stream_info.resolution1 = rbest) →
      (pick_best q l bestE rbest = none →
        bestE = none ∧ ∀ p ∈ l, p.stream_info.resolution1 ≤ rbest) ∧
      (∀ p, pick_best q l bestE rbest = some p →
        (p ∈ l ∨ bestE = some p) ∧
        (p.stream_info.resolution1 = q ∨
          (rbest ≤ p.stream_info.resolution1 ∧
            ∀ p' ∈ l, p'.stream_info.resolution1 ≤ p.stream_info.resolution1))) := by
  induction l with
  | nil =>
    intro bestE rbest hb
    constructor
    · intro h
      simp only [pick_best] at h
      exact ⟨h, by simp⟩
    · intro p h
      simp only [pick_best] at h
      refine ⟨Or.inr h, Or.inr ⟨?_, by simp⟩⟩
      rw [hb p h]
  | cons x rest ih =>
    intro bestE rbest hb
    constructor
    · intro h
      simp only [pick_best] at h
      split at h
      · split at h
        · exact absurd h (by simp)
        · rcases (ih (some x) x.stream_info.resolution1 (by intro e he; cases he; rfl)).1 h
            with ⟨hnone, _⟩
          exact absurd hnone (by simp)
      · rcases (ih bestE rbest hb).1 h with ⟨hnone, hall⟩
        refine ⟨hnone, ?_⟩
        intro p hp
        rcases List.mem_cons.mp hp with rfl | hp'
        · omega
        · exact hall p hp'
    · intro p h
      simp only [pick_best] at h
      split at h
      · split at h
        · simp only [Option.some.injEq] at h
          subst h
          exact ⟨Or.inl (List.mem_cons_self _ _), Or.inl (by omega)⟩
        · rcases (ih (some x) x.stream_info.resolution1 (by intro e he; cases he; rfl)).2 p h
            with ⟨hmem, hres⟩
          refine ⟨Or.inl ?_, ?_⟩
          · rcases hmem with hm | hm
            · exact List.mem_cons_of_mem _ hm
            · cases hm
              exact List.mem_cons_self _ _
          · rcases hres with hq | ⟨hge, hall⟩
            · exact Or.inl hq
            · refine Or.inr ⟨by omega, ?_⟩
              intro p' hp'
              rcases List.mem_cons.mp hp' with rfl | hp''
              · omega
              · exact hall p' hp''
      · rcases (ih bestE rbest hb).2 p h with ⟨hmem, hres⟩
        refine ⟨?_, ?_⟩
        · rcases hmem with hm | hm
          · exact Or.inl (List.mem_cons_of_mem _ hm)
          · exact Or.inr hm
        · rcases hres with hq | ⟨hge, hall⟩
          · exact Or.inl hq
          · refine Or.inr ⟨hge, ?_⟩
            intro p' hp'
            rcases List.mem_cons.mp hp' with rfl | hp''
            · omega
            · exact hall p' hp''

/-- C4 counterexample: with renditions of vertical resolutions
`[720, 480]` and target quality 480, the code selects the 720p rendition
— exceeding the target and passing over the listed exact-match 480p
rendition — so the selected rendition is neither of maximal resolution
not exceeding the target nor the first exact target match. -/
theorem c4_counterexample :
    variantC4.playlists.map (fun p => p.stream_info.resolution1) = [720, 480] ∧
    _extract_video_stream loadC4 variantC4 480 =
      (some (M3u8Data.mk false [] ["u720"]), "c720") ∧
    ¬(720 ≤ 480) := by decide

/-- C4 (amended): for every multivariant playlist, candidate renditions
are iterated in listed order tracking the best (highest) vertical
resolution seen so far, with no cap at the configured target: a candidate
is selected only when it strictly exceeds the best so far, and iteration
stops early when such a strictly-improving candidate equals the target
exactly.  The selected rendition is therefore a listed rendition that
either matches the target exactly or has the maximum resolution among
all listed renditions (possibly exceeding the target); the spec's
examples hold: resolutions `[360,480,720]` with target 480 select 480,
and with target 1080 select 720. -/
theorem c4_variant_selection_amended :
    (∀ (load : String → M3u8Data) (v : M3u8Data) (q : Nat),
      v.is_variant = true →
      _extract_video_stream load v q =
        (match pick_best q v.playlists none 0 with
         | none => (none, "")
         | some p => (some (load p.uri), p.stream_info.codecs))) ∧
    (∀ (q : Nat) (l : List VariantEntry) (p : VariantEntry),
      pick_best q l none 0 = some p →
      p ∈ l ∧
        (p.stream_info.resolution1 = q ∨
          ∀ p' ∈ l, p'.stream_info.resolution1 ≤ p.stream_info.resolution1)) ∧
    _extract_video_stream loadC4 variant360 480 =
      (some (M3u8Data.mk false [] ["u480"]), "c480") ∧
    _extract_video_stream loadC4 variant360 1080 =
      (some (M3u8Data.mk false [] ["u720"]), "c720") := by
  refine ⟨?_, ?_, by decide, by decide⟩
  · intro load v q hv
    have := evs_loop_pick load q v.playlists none 0
    simpa [_extract_video_stream, hv] using this
  · intro q l p h
    rcases (pick_best_spec q l none 0 (by intro e he; cases he)).2 p h with ⟨hmem, hres⟩
    refine ⟨?_, ?_⟩
    · rcases hmem with hm | hm
      · exact hm
      · cases hm
    · rcases hres with hq | ⟨_, hall⟩
      · exact Or.inl hq
      · exact Or.inr hall

/-- C4 witness: the amended selection rule evaluated on the spec's
example — resolutions `[360, 480, 720]`, target 480 picks the exact
480p rendition. -/
theorem c4_witness :
    _extract_video_stream loadC4 variant360 480 =
      (some (M3u8Data.mk false [] ["u480"]), "c480") :=
  (c4_variant_selection_amended.1 loadC4 variant360 480 rfl).trans (by decide)

/-- C9 counterexample: for the playlist manifest tag, a direct
(non-variant) media playlist with a nonempty ordered segment list does
not parse successfully — the rendition-selection helper returns the
Python `False`, and accessing `.files` on it fails — contradicting the
claim that normalization succeeds for a direct media playlist. -/
theorem c9_counterexample :
    stream_manifest_parse envC9 360 "http" StreamManifestMimeType.VIDEO =
      Except.error PyError.attributeError := by decide

/-- C9 (amended): for the playlist manifest tag, parsing succeeds only
for a multivariant playlist from which a rendition is selected (and whose
media playlist has at least one file), producing a `StreamManifest` whose
urls are the ordered segment file URLs of the selected media playlist;
for a direct (non-variant) media playlist the selection helper returns no
playlist and normalization fails with the attribute error of accessing
`.files` on `False`. -/
theorem c9_playlist_parsing_amended :
    (∀ (env : ParseEnv) (q : Nat) (manifest : String),
      (env.load_m3u8 manifest).is_variant = false →
      stream_manifest_parse env q manifest StreamManifestMimeType.VIDEO =
        Except.error PyError.attributeError) ∧
    (∀ (env : ParseEnv) (q : Nat) (manifest : String) (pl : M3u8Data) (c u : String)
       (us : List String),
      _extract_video_stream env.load_m3u8 (env.load_m3u8 manifest) q = (some pl, c) →
      pl.files = u :: us →
      stream_manifest_parse env q manifest StreamManifestMimeType.VIDEO =
        Except.ok
          { urls := pl.files, codecs := c, file_extension := get_file_extension u c,
            encryption_type := "NONE", encryption_key := none,
            mime_type := StreamManifestMimeType.VIDEO }) := by
  constructor
  · intro env q manifest h
    unfold stream_manifest_parse
    rw [if_neg (by decide), if_neg (by decide), if_pos rfl]
    simp [_extract_video_stream, h]
  · intro env q manifest pl c u us hext hfiles
    unfold stream_manifest_parse
    rw [if_neg (by decide), if_neg (by decide), if_pos rfl]
    simp [hext, hfiles]

/-- C9 witness: a multivariant playlist with a single 480p rendition
whose media playlist holds one `.ts` segment parses to that segment
list. -/
theorem c9_witness :
    stream_manifest_parse envC9v 480 "master" StreamManifestMimeType.VIDEO =
      Except.ok
        { urls := ["s0.ts"], codecs := "avc1", file_extension := ".ts",
          encryption_type := "NONE", encryption_key := none,
          mime_type := StreamManifestMimeType.VIDEO } :=
  c9_playlist_parsing_amended.2 envC9v 480 "master" (M3u8Data.mk false [] ["s0.ts"])
    "avc1" "s0.ts" [] (by decide) (by decide)

/-- A pass raises nothing, an `HTTPError`, or a non-HTTP transport
error — the only outcomes `requests` can produce in the loop body. -/
theorem runPass_error_cases (fetch : Nat → UrlOutcome) (l : List Nat) :
    (runPass fetch l).error = none ∨
      (runPass fetch l).error = some PyError.httpError ∨
      (runPass fetch l).error = some PyError.connectionError := by
  induction l with
  | nil => simp [runPass]
  | cons i rest ih =>
    cases h : fetch i with
    | ok chunks => simpa [runPass, h] using ih
    | httpError => simp [runPass, h]
    | connectionError chunks => simp [runPass, h]

/-- The write loop never lets an `HTTPError` escape: every raised
exception is a non-HTTP transport error. -/
theorem downloadLoop_raised (fetch : Nat → Nat → UrlOutcome) (urlIdxs : List Nat)
    (total : Nat) :
    ∀ (fuel pass completed : Nat) (content : Option (List Nat)) (log : List PyError)
      (trace : List (Nat × Nat)) (r : DownloadResult),
      downloadLoop fetch urlIdxs total fuel pass completed content log trace = some r →
      r.raised = none ∨ r.raised = some PyError.connectionError := by
  intro fuel
  induction fuel with
  | zero =>
    intro pass completed content log trace r h
    simp [downloadLoop] at h
  | succ n ih =>
    intro pass completed content log trace r h
    simp only [downloadLoop] at h
    split at h
    · simp only [Option.some.injEq] at h
      subst h
      exact Or.inl rfl
    · split at h
      · simp only [Option.some.injEq] at h
        subst h
        exact Or.inl rfl
      next e heq =>
        rcases runPass_error_cases (fetch pass) urlIdxs with h0 | h0 | h0
        · rw [h0] at heq
          cases heq
        · rw [h0] at heq
          simp_all
        · rw [h0] at heq
          simp only [Option.some.injEq] at heq
          subst heq
          simp only [Option.some.injEq] at h
          subst h
          exact Or.inr rfl
      · exact ih _ _ _ _ _ _ h

/-- `_download` never raises an `HTTPError` (it is always caught and
logged); every raised exception is a non-HTTP transport error. -/
theorem download_raised (env : DlEnv) (fuel : Nat) (urls : List String)
    (r : DownloadResult) (h : _download env fuel urls = some r) :
    r.raised = none ∨ r.raised = some PyError.connectionError := by
  unfold _download at h
  split at h
  · exact downloadLoop_raised _ _ _ _ _ _ _ _ _ _ h
  · split at h
    · simp only [Option.some.injEq] at h
      subst h
      exact Or.inl rfl
    · simp only [Option.some.injEq] at h
      subst h
      exact Or.inr rfl
    · exact downloadLoop_raised _ _ _ _ _ _ _ _ _ _ h

/-- C2 counterexample: with two segment URLs and an `HTTPError` on the
very first request, the fetch stops for good after that one request —
the trace shows no second pass (and no second URL) even with ample fuel,
and the progress task is not finished — contradicting the claim that a
transport error is retried via the outer write-loop rather than ending
the fetch while the task is unfinished. -/
theorem c2_counterexample :
    _download dlEnvC2 5 ["u0", "u1"] =
      some ⟨some [], 0, [PyError.httpError], none, [(0, 0)], false⟩ ∧
    _download dlEnvC2 500 ["u0", "u1"] = _download dlEnvC2 5 ["u0", "u1"] := by
  constructor <;> decide

/-- C2 (amended): every `HTTPError` raised during a pass of the
segmented/single-resource fetch is reported to the logging collaborator
and then permanently ends the write loop — the `except HTTPError` handler
sits outside the `while`, so no further pass runs even though the
progress task is unfinished; the retry-from-the-start (with the output
file reopened in truncate mode) happens only after a pass that completes
without raising while the task is still unfinished; a non-HTTP transport
error raised during a pass is neither logged nor retried — the loop ends
at once and the error propagates; an `HTTPError` of the preliminary
single-resource content-length request is likewise caught and logged
before any file is created, while a non-HTTP transport error there
propagates unlogged; and no `HTTPError` ever propagates out of the
fetch — everything raised is a non-HTTP transport error. -/
theorem c2_transport_retry_amended :
    (∀ (fetch : Nat → Nat → UrlOutcome) (urlIdxs : List Nat)
       (total fuel pass completed : Nat) (content : Option (List Nat))
       (log : List PyError) (trace : List (Nat × Nat)),
      completed < total →
      (runPass (fetch pass) urlIdxs).error = some PyError.httpError →
      downloadLoop fetch urlIdxs total (fuel + 1) pass completed content log trace =
        some ⟨some (runPass (fetch pass) urlIdxs).written,
              completed + (runPass (fetch pass) urlIdxs).advanced,
              log ++ [PyError.httpError], none,
              trace ++ (runPass (fetch pass) urlIdxs).fetched.map (fun u => (pass, u)),
              decide (total ≤ completed + (runPass (fetch pass) urlIdxs).advanced)⟩) ∧
    (∀ (fetch : Nat → Nat → UrlOutcome) (urlIdxs : List Nat)
       (total fuel pass completed : Nat) (content : Option (List Nat))
       (log : List PyError) (trace : List (Nat × Nat)),
      completed < total →
      (runPass (fetch pass) urlIdxs).error = none →
      downloadLoop fetch urlIdxs total (fuel + 1) pass completed content log trace =
        downloadLoop fetch urlIdxs total fuel (pass + 1)
          (completed + (runPass (fetch pass) urlIdxs).advanced)
          (some (runPass (fetch pass) urlIdxs).written) log
          (trace ++ (runPass (fetch pass) urlIdxs).fetched.map (fun u => (pass, u)))) ∧
    (∀ (fetch : Nat → Nat → UrlOutcome) (urlIdxs : List Nat)
       (total fuel pass completed : Nat) (content : Option (List Nat))
       (log : List PyError) (trace : List (Nat × Nat)),
      completed < total →
      (runPass (fetch pass) urlIdxs).error = some PyError.connectionError →
      downloadLoop fetch urlIdxs total (fuel + 1) pass completed content log trace =
        some ⟨some (runPass (fetch pass) urlIdxs).written,
              completed + (runPass (fetch pass) urlIdxs).advanced,
              log, some PyError.connectionError,
              trace ++ (runPass (fetch pass) urlIdxs).fetched.map (fun u => (pass, u)),
              decide (total ≤ completed + (runPass (fetch pass) urlIdxs).advanced)⟩) ∧
    (∀ (env : DlEnv) (fuel : Nat) (urls : List String),
      ¬1 < urls.length →
      (env.head = UrlOutcome.httpError →
        _download env fuel urls =
          some ⟨none, 0, [PyError.httpError], none, [], false⟩) ∧
      (∀ chunks, env.head = UrlOutcome.connectionError chunks →
        _download env fuel urls =
          some ⟨none, 0, [], some PyError.connectionError, [], false⟩)) ∧
    (∀ (env : DlEnv) (fuel : Nat) (urls : List String) (r : DownloadResult),
      _download env fuel urls = some r →
      r.raised ≠ some PyError.httpError ∧
        (r.raised = none ∨ r.raised = some PyError.connectionError)) := by
  refine ⟨?_, ?_, ?_, ?_, ?_⟩
  · intro fetch urlIdxs total fuel pass completed content log trace hlt herr
    simp only [downloadLoop]
    rw [if_neg (by omega)]
    rw [herr]
  · intro fetch urlIdxs total fuel pass completed content log trace hlt herr
    simp only [downloadLoop]
    rw [if_neg (by omega)]
    rw [herr]
  · intro fetch urlIdxs total fuel pass completed content log trace hlt herr
    simp only [downloadLoop]
    rw [if_neg (by omega)]
    rw [herr]
  · intro env fuel urls hlen
    constructor
    · intro hhead
      unfold _download
      rw [if_neg hlen, hhead]
    · intro chunks hhead
      unfold _download
      rw [if_neg hlen, hhead]
  · intro env fuel urls r h
    refine ⟨?_, download_raised env fuel urls r h⟩
    intro hcontra
    rcases download_raised env fuel urls r h with h0 | h0 <;> rw [h0] at hcontra <;>
      simp at hcontra

/-- C2 witness: the HTTP-stop behaviour of the write loop evaluated at a
concrete single-url manifest whose only request raises `HTTPError`. -/
theorem c2_witness :
    downloadLoop (fun _ _ => UrlOutcome.httpError) [0] 1 1 0 0 none [] [] =
      some ⟨some [], 0, [PyError.httpError], none, [(0, 0)], false⟩ :=
  (c2_transport_retry_amended.1 (fun _ _ => UrlOutcome.httpError) [0] 1 0 0 0 none [] []
    (by decide) (by decide)).trans (by decide)

/-- C1 (code bug): an `HTTPError` raised mid-segment-loop (on the second
of two segments) is caught and logged by `_download`, which then returns
normally; `item` promotes the partial temporary file to the final
destination path and reports success — a file with only the first
segment's bytes is created at the final computed path even though the
fetch was incomplete (task unfinished), contradicting the spec's
atomicity guarantee. -/
theorem c1_partial_promotion :
    (item itemEnvC1 3 (some ⟨MediaKind.track, "1"⟩) none none true).result =
      Except.ok (true, "/x/track.m4a") ∧
    (item itemEnvC1 3 (some ⟨MediaKind.track, "1"⟩) none none true).finalFile =
      some [7] ∧
    Effect.logError PyError.httpError ∈
      (item itemEnvC1 3 (some ⟨MediaKind.track, "1"⟩) none none true).effects ∧
    Effect.moveFile "/x/track.m4a" ∈
      (item itemEnvC1 3 (some ⟨MediaKind.track, "1"⟩) none none true).effects ∧
    _download dlEnvC1 3 ["u0.m4a", "u1.m4a"] =
      some ⟨some [7], 1, [PyError.httpError], none, [(0, 0), (0, 1)], false⟩ := by
  refine ⟨?_, ?_, ?_, ?_, ?_⟩ <;> decide

/-- C3 counterexample: with the skip policy enabled and a file present at
the computed path, `item` does return `(False, path)` — but the manifest
fetch (`media.stream()`) has already happened by then, contradicting the
claim that zero network requests are performed. -/
theorem c3_counterexample :
    (item itemEnvC3 1 (some ⟨MediaKind.track, "1"⟩) none none true).result =
      Except.ok (false, "/x/track.m4a") ∧
    Effect.manifestFetch ∈
      (item itemEnvC3 1 (some ⟨MediaKind.track, "1"⟩) none none true).effects := by
  constructor <;> decide

/-- C3 (amended): whenever the skip policy is enabled and a file already
exists at the computed destination path, the single-item download returns
`downloaded = false` together with the computed path, performs no content
fetch and no move, and creates no file — but the manifest fetch (needed
to determine the file extension of the computed path) still occurs before
the skip check; only the content download is skipped, not all network
requests. -/
theorem c3_skip_amended (env : ItemEnv) (fuel : Nat) (m : Media)
    (sm : StreamManifest)
    (hkind : m.kind = MediaKind.track)
    (hval : env.skip_existing.val = true)
    (hparse : stream_manifest_parse env.parseEnv env.quality_video
        env.track_manifest.1 env.track_manifest.2 = Except.ok sm)
    (hex : env.file_exists (env.sanitize (env.path_formatted ++ sm.file_extension))
        (env.skip_existing = SkipExisting.extensionIgnore) = true) :
    item env fuel (some m) none none true =
      ⟨Except.ok (false, env.sanitize (env.path_formatted ++ sm.file_extension)),
       [Effect.computePath, Effect.manifestFetch,
        Effect.skipCheck (env.sanitize (env.path_formatted ++ sm.file_extension)),
        Effect.logDebug], none⟩ := by
  have hres : resolve_media (some m) none none = Except.ok (m, ([] : List Effect)) := rfl
  simp [item, hres, hkind, hparse, hval, hex]

/-- C3 witness: the amended skip behaviour evaluated on a concrete
environment with an existing file. -/
theorem c3_witness :
    item itemEnvC3 1 (some ⟨MediaKind.track, "1"⟩) none none true =
      ⟨Except.ok (false, "/x/track.m4a"),
       [Effect.computePath, Effect.manifestFetch, Effect.skipCheck "/x/track.m4a",
        Effect.logDebug], none⟩ :=
  c3_skip_amended itemEnvC3 1 ⟨MediaKind.track, "1"⟩ smBts rfl rfl (by decide) (by decide)

/-- The effects of resolving a media handle are at most one instantiation
call. -/
theorem resolve_media_effects (media : Option Media) (media_id : Option String)
    (media_type : Option MediaTag) (m : Media) (eff0 : List Effect)
    (hres : resolve_media media media_id media_type = Except.ok (m, eff0)) :
    eff0 = [] ∨ ∃ t i, eff0 = [Effect.instantiate t i] := by
  have hfall : ∀ (md : Option Media),
      (match md with
       | none => Except.error PyError.mediaMissing
       | some m2 => Except.ok (m2, ([] : List Effect))) = Except.ok (m, eff0) →
      eff0 = [] := by
    intro md h
    rcases md with _ | m2
    · exact absurd h (by simp)
    · simp only [Except.ok.injEq, Prod.mk.injEq] at h
      exact h.2.symm
  cases media_id with
  | none =>
    simp only [resolve_media, truthyStr, Bool.false_and, Bool.false_eq_true,
      if_false] at hres
    exact Or.inl (hfall media hres)
  | some i =>
    cases media_type with
    | none =>
      simp only [resolve_media, truthyStr, Option.isSome, Bool.and_false,
        Bool.false_eq_true, if_false] at hres
      exact Or.inl (hfall media hres)
    | some t =>
      by_cases hi : i = ""
      · subst hi
        simp only [resolve_media, truthyStr] at hres
        rw [if_neg (by simp)] at hres
        exact Or.inl (hfall media hres)
      · have hbe : (i != "") = true := by simp [hi]
        cases hinst : instantiate_media t i with
        | error e =>
          simp only [resolve_media, truthyStr, Option.isSome, Bool.and_true, hbe,
            if_true, hinst] at hres
          exact absurd hres (by simp [Except.map])
        | ok m2 =>
          simp only [resolve_media, truthyStr, Option.isSome, Bool.and_true, hbe,
            if_true, hinst, Except.map, Except.ok.injEq, Prod.mk.injEq] at hres
          exact Or.inr ⟨t, i, hres.2.symm⟩

/-- C10: when the `video_download` flag is false, `item` returns
`(False, "")` for every resolved media item — audio tracks as well as
videos — and the only effects performed are the optional instantiation
and the info log: no destination path is computed, no manifest is
fetched, no content is fetched, nothing is moved, and no file is
created. -/
theorem c10_video_flag (env : ItemEnv) (fuel : Nat) (media : Option Media)
    (media_id : Option String) (media_type : Option MediaTag) (m : Media)
    (eff0 : List Effect)
    (hres : resolve_media media media_id media_type = Except.ok (m, eff0)) :
    item env fuel media media_id media_type false =
      ⟨Except.ok (false, ""), eff0 ++ [Effect.logInfo], none⟩ ∧
    ∀ e ∈ eff0 ++ [Effect.logInfo],
      e = Effect.logInfo ∨ ∃ t i, e = Effect.instantiate t i := by
  constructor
  · simp [item, hres]
  · intro e he
    rcases List.mem_append.mp he with h0 | hli
    · rcases resolve_media_effects media media_id media_type m eff0 hres with h | ⟨t, i, h⟩
      · rw [h] at h0
        cases h0
      · rw [h] at h0
        rcases List.mem_singleton.mp h0 with rfl
        exact Or.inr ⟨t, i, rfl⟩
    · rcases List.mem_singleton.mp hli with rfl
      exact Or.inl rfl

/-- C10 witness: a plain audio track with the video flag off returns
`(False, "")` with only the info log as effect. -/
theorem c10_witness :
    item itemEnvC10 0 (some ⟨MediaKind.track, "1"⟩) none none false =
      ⟨Except.ok (false, ""), [Effect.logInfo], none⟩ :=
  (c10_video_flag itemEnvC10 0 (some ⟨MediaKind.track, "1"⟩) none none
    ⟨MediaKind.track, "1"⟩ [] (by decide)).1

/-- Manifest parsing fails only with `UnknownManifestFormat`, the
attribute error of the non-variant playlist path, or the index error of
an empty url list — never with a media classification error. -/
theorem parse_error_not_media (env : ParseEnv) (q : Nat) (manifest mime : String)
    (e : PyError) (h : stream_manifest_parse env q manifest mime = Except.error e) :
    e = PyError.unknownManifestFormat ∨ e = PyError.attributeError ∨
      e = PyError.indexError := by
  unfold stream_manifest_parse at h
  split at h
  · simp only [] at h
    split at h <;> simp_all
  · split at h
    · simp only [] at h
      split at h <;> simp_all
    · split at h
      · simp only [] at h
        split at h
        · simp_all
        · split at h <;> simp_all
      · simp_all

/-- `stream_manifest_parse` raises `UnknownManifestFormat` exactly when
the manifest MIME tag is none of the three recognized ones. -/
theorem parse_unknown_iff (env : ParseEnv) (q : Nat) (manifest mime : String) :
    stream_manifest_parse env q manifest mime =
        Except.error PyError.unknownManifestFormat ↔
      (mime ≠ StreamManifestMimeType.MPD ∧ mime ≠ StreamManifestMimeType.BTS ∧
        mime ≠ StreamManifestMimeType.VIDEO) := by
  unfold stream_manifest_parse
  split
  next h1 =>
    constructor
    · intro h
      simp only [] at h
      split at h <;> simp_all
    · rintro ⟨ha, -, -⟩
      exact absurd h1 ha
  next h1 =>
    split
    next h2 =>
      constructor
      · intro h
        simp only [] at h
        split at h <;> simp_all
      · rintro ⟨-, hb, -⟩
        exact absurd h2 hb
    next h2 =>
      split
      next h3 =>
        constructor
        · intro h
          simp only [] at h
          split at h
          · simp_all
          · split at h <;> simp_all
        · rintro ⟨-, -, hc⟩
          exact absurd h3 hc
      next h3 =>
        simp [h1, h2, h3]

/-- Media resolution raises `MediaMissing` exactly when no handle is
supplied and the (id, type) pair is not completely supplied. -/
theorem resolve_missing_iff (media : Option Media) (media_id : Option String)
    (media_type : Option MediaTag) :
    resolve_media media media_id media_type = Except.error PyError.mediaMissing ↔
      (media = none ∧ ¬(truthyStr media_id = true ∧ media_type.isSome = true)) := by
  cases media_id with
  | none =>
    rcases media with _ | m2 <;> simp [resolve_media, truthyStr]
  | some i =>
    cases media_type with
    | none =>
      rcases media with _ | m2 <;> simp [resolve_media, truthyStr]
    | some t =>
      by_cases hi : i = ""
      · subst hi
        rcases media with _ | m2 <;>
          simp [resolve_media, truthyStr]
      · have hbe : (i != "") = true := by simp [hi]
        cases t <;>
          simp [resolve_media, truthyStr, hbe, instantiate_media, Except.map, hi]

/-- `item` reports `MediaMissing` exactly when media resolution does: no
later stage of the item pipeline can produce that error. -/
theorem item_missing_iff (env : ItemEnv) (fuel : Nat) (media : Option Media)
    (media_id : Option String) (media_type : Option MediaTag) (vd : Bool) :
    (item env fuel media media_id media_type vd).result =
        Except.error PyError.mediaMissing ↔
      resolve_media media media_id media_type = Except.error PyError.mediaMissing := by
  cases hres : resolve_media media media_id media_type with
  | error e =>
    simp [item, hres]
  | ok pair =>
    obtain ⟨m, eff0⟩ := pair
    constructor
    · intro h
      exfalso
      unfold item at h
      rw [hres] at h
      cases vd with
      | false => simp at h
      | true =>
        simp only [Bool.not_true] at h
        rw [if_neg (by simp)] at h
        try simp only [] at h
        split at h
        next e heqp =>
          try simp only [] at h
          rcases parse_error_not_media _ _ _ _ _ heqp with h1 | h1 | h1 <;>
            simp_all
        next sm heqp =>
          split at h
          next hval =>
            split at h
            next hex =>
              simp at h
            next hex =>
              split at h
              next hdl =>
                simp at h
              next dl hdl =>
                split at h
                next edl heqr =>
                  rcases download_raised _ _ _ _ hdl with h0 | h0 <;>
                    rw [heqr] at h0 <;> simp_all
                next heqr =>
                  simp at h
          next hval =>
            split at h
            next hsk =>
              simp at hsk
            next hsk =>
              split at h
              next hdl =>
                simp at h
              next dl hdl =>
                split at h
                next edl heqr =>
                  rcases download_raised _ _ _ _ hdl with h0 | h0 <;>
                    rw [heqr] at h0 <;> simp_all
                next heqr =>
                  simp at h
    · intro h
      exact absurd h (by simp)

/-- C8: the single-item operation raises `MediaMissing` exactly when
neither a media handle nor a complete (type, id) pair is supplied; media
instantiation raises `MediaUnknown` exactly when the media type tag is
none of the five recognized ones (and `item` propagates it); manifest
parsing raises `UnknownManifestFormat` exactly when the manifest MIME
type is none of the three recognized tags; and a parse error aborts the
item immediately, propagating to the caller. -/
theorem c8_classification_errors :
    (∀ (env : ItemEnv) (fuel : Nat) (media : Option Media) (media_id : Option String)
       (media_type : Option MediaTag) (vd : Bool),
      (item env fuel media media_id media_type vd).result =
          Except.error PyError.mediaMissing ↔
        (media = none ∧ ¬(truthyStr media_id = true ∧ media_type.isSome = true))) ∧
    (∀ (t : MediaTag) (i : String),
      instantiate_media t i = Except.error PyError.mediaUnknown ↔
        (t ≠ MediaTag.track ∧ t ≠ MediaTag.video ∧ t ≠ MediaTag.album ∧
         t ≠ MediaTag.playlist ∧ t ≠ MediaTag.mix)) ∧
    (∀ (env : ItemEnv) (fuel : Nat) (media : Option Media) (i s : String) (vd : Bool),
      i ≠ "" →
      (item env fuel media (some i) (some (MediaTag.other s)) vd).result =
        Except.error PyError.mediaUnknown) ∧
    (∀ (env : ParseEnv) (q : Nat) (manifest mime : String),
      stream_manifest_parse env q manifest mime =
          Except.error PyError.unknownManifestFormat ↔
        (mime ≠ StreamManifestMimeType.MPD ∧ mime ≠ StreamManifestMimeType.BTS ∧
         mime ≠ StreamManifestMimeType.VIDEO)) ∧
    (∀ (env : ItemEnv) (fuel : Nat) (m : Media) (e : PyError),
      m.kind = MediaKind.track →
      stream_manifest_parse env.parseEnv env.quality_video env.track_manifest.1
          env.track_manifest.2 = Except.error e →
      (item env fuel (some m) none none true).result = Except.error e) := by
  refine ⟨?_, ?_, ?_, ?_, ?_⟩
  · intro env fuel media media_id media_type vd
    exact (item_missing_iff env fuel media media_id media_type vd).trans
      (resolve_missing_iff media media_id media_type)
  · intro t i
    cases t <;> simp [instantiate_media]
  · intro env fuel media i s vd hi
    have hbe : (i != "") = true := by simp [hi]
    have hres : resolve_media media (some i) (some (MediaTag.other s)) =
        Except.error PyError.mediaUnknown := by
      simp [resolve_media, truthyStr, hbe, instantiate_media, Except.map]
    simp [item, hres]
  · intro env q manifest mime
    exact parse_unknown_iff env q manifest mime
  · intro env fuel m e hkind hparse
    have hres : resolve_media (some m) none none = Except.ok (m, ([] : List Effect)) :=
      rfl
    simp [item, hres, hkind, hparse]

/-- C8 witness: an unrecognized media type tag makes `instantiate_media`
fail with `MediaUnknown`. -/
theorem c8_witness :
    instantiate_media (MediaTag.other "x") "1" = Except.error PyError.mediaUnknown :=
  (c8_classification_errors.2.1 (MediaTag.other "x") "1").mpr (by decide)
